import Mathlib

/-!
Shallow embedding of the KakaoTalk chatbot server (src/app.py) and proofs of
the specification claims. Texts are modelled as Lean strings; the generation
service, the conversation database and the outbound HTTP calls are modelled
as explicit outcome parameters plus an observable effect trace.
-/

namespace KakaoBot

/-- Fixed message constants, from src/app.py lines 36-39. -/
def ERROR_MSG_KNOWLEDGE_BASE : String :=
  "오류: 지식 베이스 파일을 초기화하는 중 심각한 오류가 발생했습니다."

/-- Fixed apology returned when the external generation call errors (line 37). -/
def ERROR_MSG_AI_FAILED : String :=
  "죄송합니다. AI 답변을 생성하는 중 시스템 오류가 발생했습니다. 잠시 후 다시 시도해주세요."

/-- Fallback used in the deferred path when the generated text is empty (line 38). -/
def FALLBACK_MSG_EMPTY_RESPONSE : String :=
  "죄송합니다. AI가 답변을 생성하는 데 실패했습니다. 질문을 조금 더 구체적으로 해주시거나, 잠시 후 다시 시도해주세요."

/-- Fixed no-information sentence the model is instructed to emit (line 39). -/
def FALLBACK_MSG_NO_INFO : String :=
  "문의하신 내용에 대한 정보가 부족하여 정확한 안내가 어렵습니다. 관리사무실로 문의해 주시기 바랍니다."

/-- Apology returned by generate_ai_response_total_knowledge when the knowledge
base is unavailable (line 162). -/
def ERROR_MSG_KB_UNAVAILABLE : String :=
  "죄송합니다. 현재 챗봇의 지식 베이스에 문제가 발생하여 답변할 수 없습니다."

/-- Boolean test that `pat` occurs at the start of `s` (models Python string
matching at one position). -/
def matchesAt (pat s : List Char) : Bool :=
  match pat, s with
  | [], _ => true
  | _ :: _, [] => false
  | a :: as, b :: bs => a = b && matchesAt as bs

/-- Boolean substring test on character lists, models the Python `in` operator
on strings. -/
def occursInL (pat s : List Char) : Bool :=
  match s with
  | [] => matchesAt pat []
  | _ :: rest => matchesAt pat s || occursInL pat rest

/-- Substring test on strings, models Python `pat in s`. -/
def occursIn (pat s : String) : Bool :=
  occursInL pat.data s.data

/-- Characters treated as whitespace by Python str.strip. -/
def isPySpace (c : Char) : Bool :=
  c = ' ' || c = '\t' || c = '\n' || c = '\r' || c = Char.ofNat 11 || c = Char.ofNat 12

/-- Python str.strip: drop leading and trailing whitespace. -/
def pyStrip (l : List Char) : List Char :=
  ((l.dropWhile isPySpace).reverse.dropWhile isPySpace).reverse

/-- Characters deleted by the sanitizer regex at src/app.py line 209:
star, hash, hyphen, backtick, bullet, tilde. -/
def removalSet : List Char :=
  ['*', '#', '-', Char.ofNat 96, '•', '~']

/-- Output sanitizer (src/app.py line 209): delete every character of
`removalSet` anywhere in the text, then strip surrounding whitespace. -/
def sanitize (l : List Char) : List Char :=
  pyStrip (l.filter (fun c => !(removalSet.contains c)))

/-- One row of knowledge.csv: category, topic, content (src/app.py lines 99-104). -/
structure KnowledgeRecord where
  category : String
  topic : String
  content : String
deriving DecidableEq

/-- Insertion into a string list sorted ascending (models the sorted group keys
produced by pandas groupby). -/
def insertSorted (s : String) : List String → List String
  | [] => [s]
  | t :: ts => if s < t then s :: t :: ts else t :: insertSorted s ts

/-- Sorted list of the distinct categories of the records, as pandas groupby
enumerates group keys. -/
def sortedCategories (rs : List KnowledgeRecord) : List String :=
  (rs.map (fun r => r.category)).eraseDups.foldl (fun acc c => insertSorted c acc) []

/-- Markdown block for one record (src/app.py line 103). -/
def formatRecord (r : KnowledgeRecord) : String :=
  "### " ++ r.topic ++ "\n" ++ r.content ++ "\n"

/-- Lines produced for one category group (src/app.py lines 100-103). -/
def categoryBlock (rs : List KnowledgeRecord) (c : String) : List String :=
  ("## " ++ c ++ "\n") :: ((rs.filter (fun r => r.category = c)).map formatRecord)

/-- The formatted_texts list of src/app.py lines 99-103. -/
def formattedTexts (rs : List KnowledgeRecord) : List String :=
  (sortedCategories rs).flatMap (categoryBlock rs)

/-- Knowledge compilation (src/app.py lines 83-114). The CSV read outcome is a
parameter: on success the textbook is the joined formatted texts, on any read
or parse failure the textbook becomes a sentinel message containing
ERROR_MSG_KNOWLEDGE_BASE (both except branches produce such a message). -/
def loadAndFormatKnowledgeBase (csvResult : Except String (List KnowledgeRecord)) : String :=
  match csvResult with
  | Except.ok rs => String.intercalate "\n" (formattedTexts rs)
  | Except.error e => ERROR_MSG_KNOWLEDGE_BASE ++ " (원인: " ++ e ++ ")"

/-- Guard at src/app.py line 161: the knowledge base is unusable when the
textbook is empty or contains the sentinel error message. -/
def kbFailed (textbook : String) : Bool :=
  textbook.data.isEmpty || occursIn ERROR_MSG_KNOWLEDGE_BASE textbook

/-- One quickReplies entry of the Kakao response payload. -/
structure QuickReply where
  label : String
  action : String
  webLinkUrl : String
deriving DecidableEq

/-- The template part of the Kakao response payload: simpleText outputs plus
optional quick replies. -/
structure KakaoTemplate where
  outputs : List String
  quickReplies : List QuickReply
deriving DecidableEq

/-- The full Kakao response payload. -/
structure KakaoPayload where
  version : String
  template : KakaoTemplate
deriving DecidableEq

/-- The phone quick-reply button (src/app.py line 288). -/
def phoneQuickReply : QuickReply :=
  { label := "관리사무실 전화", action := "webLink", webLinkUrl := "tel:0319571260" }

/-- Payload construction in the deferred path (src/app.py lines 282-298): the
phone quick-reply is attached exactly when the no-info sentence occurs in the
final text, otherwise only the simple text output is sent. -/
def buildCallbackPayload (text : String) : KakaoPayload :=
  if occursIn FALLBACK_MSG_NO_INFO text then
    { version := "2.0", template := { outputs := [text], quickReplies := [phoneQuickReply] } }
  else
    { version := "2.0", template := { outputs := [text], quickReplies := [] } }

/-- Payload construction in the synchronous path (src/app.py lines 371-378),
textually the same branch as the deferred one. -/
def buildSyncPayload (text : String) : KakaoPayload :=
  if occursIn FALLBACK_MSG_NO_INFO text then
    { version := "2.0", template := { outputs := [text], quickReplies := [phoneQuickReply] } }
  else
    { version := "2.0", template := { outputs := [text], quickReplies := [] } }

/-- Observable side effects of the request pipeline. -/
inductive Effect where
  | historyRead (userId : String)
  | genCall
  | dbAppend (userId role content : String)
  | jandiPost
  | callbackPost (url : String) (payload : KakaoPayload)
  | logOnly (tag : String)
  | threadLaunch (userId userMessage callbackUrl : String)
  | ackReturn
deriving DecidableEq

/-- One stored conversation turn; its timestamp is its position in the store. -/
structure Turn where
  userId : String
  role : String
  content : String
deriving DecidableEq

/-- One entry of the history handed to the generation service: the role and
content columns selected at src/app.py line 128. -/
structure HistoryEntry where
  role : String
  content : String
deriving DecidableEq

/-- Outcomes of the external collaborators for one request: the compiled
textbook (global state), the DB history read, the generation call, whether the
JANDI webhook is configured, and the callback POST outcome. A read or call
failure is an `Except.error`; the code catches each of these at its boundary.
The history value only shapes the prompt, so it does not alter any modelled
output. -/
structure PipelineEnv where
  textbook : String
  histResult : Except Unit (List HistoryEntry)
  genResult : Except Unit String
  jandiConfigured : Bool
  deliveryResult : Except Unit Nat

/-- Answer generation (src/app.py lines 159-214), returning the produced text
together with the generation-call effects. If the knowledge base failed, the
fixed apology is returned and the external service is not called; otherwise
the service is called exactly once: on success its output is sanitized and
stripped, on error the fixed apology ERROR_MSG_AI_FAILED is returned (the
exception is caught, never rethrown, and the call is not retried). -/
def generateAiResponseTotalKnowledge (textbook : String) (genResult : Except Unit String) :
    String × List Effect :=
  if kbFailed textbook then
    (ERROR_MSG_KB_UNAVAILABLE, [])
  else
    match genResult with
    | Except.ok ai => (String.mk (sanitize ai.data), [Effect.genCall])
    | Except.error _ => (ERROR_MSG_AI_FAILED, [Effect.genCall])

/-- The final_text_for_user computation of the deferred path (src/app.py lines
260-263): an empty or whitespace-only generation result is replaced by the
fixed empty-response fallback. -/
def deferredFinalText (textbook : String) (genResult : Except Unit String) : String :=
  let t := (generateAiResponseTotalKnowledge textbook genResult).1
  if pyStrip t.data = [] then FALLBACK_MSG_EMPTY_RESPONSE else t

/-- Effects of send_to_jandi (src/app.py lines 221-247): posts once when the
webhook is configured, otherwise returns early; failures are caught. -/
def jandiEffects (configured : Bool) : List Effect :=
  if configured then [Effect.jandiPost] else []

/-- Effects of the callback delivery block (src/app.py lines 300-316): with an
empty callback url only an error is logged; otherwise exactly one POST is
issued, and its outcome (success, non-200 or exception) is only logged,
never retried. -/
def deliveryEffects (callbackUrl : String) (payload : KakaoPayload)
    (result : Except Unit Nat) : List Effect :=
  if callbackUrl = "" then
    [Effect.logOnly "empty callback_url"]
  else
    Effect.callbackPost callbackUrl payload ::
      (match result with
       | Except.ok 200 => [Effect.logOnly "callback ok"]
       | Except.ok _ => [Effect.logOnly "callback non-200"]
       | Except.error _ => [Effect.logOnly "callback send failed"])

/-- The background worker process_and_send_callback (src/app.py lines 250-316)
as its effect trace: history read, generation, the two DB appends, the JANDI
notification, then the callback delivery. Every internal failure is absorbed
before this point, so the trace shape depends only on the outcomes in `env`. -/
def processAndSendCallback (userId userMessage callbackUrl : String)
    (env : PipelineEnv) : List Effect :=
  Effect.historyRead userId ::
    ((generateAiResponseTotalKnowledge env.textbook env.genResult).2 ++
     [Effect.dbAppend userId "user" userMessage,
      Effect.dbAppend userId "assistant" (deferredFinalText env.textbook env.genResult)] ++
     jandiEffects env.jandiConfigured ++
     deliveryEffects callbackUrl
       (buildCallbackPayload (deferredFinalText env.textbook env.genResult))
       env.deliveryResult)

/-- The user object of the inbound Kakao request. -/
structure KakaoUser where
  id : Option String
deriving DecidableEq

/-- The userRequest object of the inbound Kakao request; callbackUrl is read
with .get and so is optional without error. -/
structure UserRequest where
  utterance : Option String
  callbackUrl : Option String
  user : Option KakaoUser
deriving DecidableEq

/-- The inbound request body; `none` at the top models a non-JSON body. -/
structure KakaoRequest where
  userRequest : Option UserRequest
deriving DecidableEq

/-- Field extraction of src/app.py lines 333-340: any missing userRequest,
utterance, user or user id raises KeyError or TypeError, which the handler
maps to a 400 response. Returns (utterance, callbackUrl, userId). -/
def extractFields : Option KakaoRequest → Option (String × Option String × String)
  | none => none
  | some r =>
    match r.userRequest with
    | none => none
    | some ur =>
      match ur.utterance with
      | none => none
      | some msg =>
        match ur.user with
        | none => none
        | some u =>
          match u.id with
          | none => none
          | some uid => some (msg, ur.callbackUrl, uid)

/-- Python truthiness of the optional callback url: absent or empty is falsy. -/
def optTruthy : Option String → Option String
  | none => none
  | some s => if s = "" then none else some s

/-- Response value of the /callback handler. -/
inductive HandlerResponse where
  | clientError
  | ack
  | payload (p : KakaoPayload)
deriving DecidableEq

/-- The /callback handler (src/app.py lines 328-379) as its HTTP status,
response value and the effect trace performed by the handler itself. With a
truthy callback url it launches the background thread and then returns the
ack (so the launch precedes the ack emission in program order); the
background trace is `processAndSendCallback` and is scheduled concurrently.
Without one it runs the pipeline synchronously and returns the payload built
from the raw generated text (no empty-text fallback in this branch). -/
def callbackHandler (req : Option KakaoRequest) (env : PipelineEnv) :
    (Nat × HandlerResponse) × List Effect :=
  match extractFields req with
  | none => ((400, HandlerResponse.clientError), [])
  | some (msg, cbOpt, uid) =>
    match optTruthy cbOpt with
    | some url =>
      ((200, HandlerResponse.ack), [Effect.threadLaunch uid msg url, Effect.ackReturn])
    | none =>
      let ai := (generateAiResponseTotalKnowledge env.textbook env.genResult).1
      ((200, HandlerResponse.payload (buildSyncPayload ai)),
        Effect.historyRead uid ::
          ((generateAiResponseTotalKnowledge env.textbook env.genResult).2 ++
           [Effect.dbAppend uid "user" msg, Effect.dbAppend uid "assistant" ai] ++
           jandiEffects env.jandiConfigured))

/-- Appending one turn to the conversation store (src/app.py lines 139-153):
an INSERT at the end, timestamps increasing with insertion order. -/
def addToConversationHistory (db : List Turn) (userId role content : String) : List Turn :=
  db ++ [{ userId := userId, role := role, content := content }]

/-- The rows of the store belonging to one user, each paired with its
timestamp (its position in the store), in chronological order. -/
def userTurnsFrom (i : Nat) (userId : String) : List Turn → List (Nat × Turn)
  | [] => []
  | t :: rest =>
    if t.userId = userId then (i, t) :: userTurnsFrom (i + 1) userId rest
    else userTurnsFrom (i + 1) userId rest

/-- History read with timestamps (src/app.py lines 120-137): the SQL query
orders the user's rows by timestamp descending and limits them, and the
Python code reverses the result back to chronological order. -/
def getConversationHistoryTimed (db : List Turn) (userId : String) (limit : Nat) :
    List (Nat × Turn) :=
  ((userTurnsFrom 0 userId db).reverse.take limit).reverse

/-- History read as the code returns it: role and content dictionaries in
chronological order (src/app.py lines 128-137). -/
def getConversationHistory (db : List Turn) (userId : String) (limit : Nat) :
    List HistoryEntry :=
  (getConversationHistoryTimed db userId limit).map (fun p => { role := p.2.role, content := p.2.content })

/-- Interleavings of two effect sequences, recursing on an explicit fuel
bound (structural recursion, so the kernel can evaluate it). -/
def interleavingsFuel : Nat → List Effect → List Effect → List (List Effect)
  | 0, xs, ys => [xs ++ ys]
  | _ + 1, [], ys => [ys]
  | _ + 1, x :: xs, [] => [x :: xs]
  | n + 1, x :: xs, y :: ys =>
    (interleavingsFuel n xs (y :: ys)).map (fun t => x :: t) ++
      (interleavingsFuel n (x :: xs) ys).map (fun t => y :: t)

/-- All interleavings of two effect sequences: the schedules the thread
scheduler may realise for two concurrent sequential traces. The fuel equals
the total length, which the recursion never exhausts. -/
def interleavings (xs ys : List Effect) : List (List Effect) :=
  interleavingsFuel (xs.length + ys.length) xs ys

/-- Recognizer for pipeline-work effects (retrieval, generation, store or
outbound activity of the background pipeline). -/
def pipelineWork : Effect → Bool
  | Effect.historyRead _ => true
  | Effect.genCall => true
  | Effect.dbAppend _ _ _ => true
  | Effect.jandiPost => true
  | Effect.callbackPost _ _ => true
  | _ => false

/-- Whether the first acknowledgment in the trace precedes every
pipeline-work effect. -/
def ackBeforeWork : List Effect → Bool
  | [] => true
  | Effect.ackReturn :: _ => true
  | e :: rest => if pipelineWork e then false else ackBeforeWork rest

/-- Recognizer for callback POST effects. -/
def isCallbackPostEvt : Effect → Bool
  | Effect.callbackPost _ _ => true
  | _ => false

/-- Number of callback POSTs issued in a trace. -/
def countCallbackPosts (tr : List Effect) : Nat :=
  tr.countP isCallbackPostEvt

/-- Concrete environment: a healthy one-word textbook, an empty history, a
generation call that succeeds with the empty string, no JANDI webhook, and a
callback target answering 200. -/
def envEmptyGen : PipelineEnv :=
  { textbook := "KB", histResult := Except.ok [], genResult := Except.ok "",
    jandiConfigured := false, deliveryResult := Except.ok 200 }

/-- Concrete well-formed request without a callback url (immediate mode). -/
def reqNoCb : KakaoRequest := ⟨some ⟨some "문의", none, some ⟨some "u1"⟩⟩⟩

/-- Concrete well-formed request with a callback url (deferred mode). -/
def reqWithCb : KakaoRequest := ⟨some ⟨some "문의", some "http://cb", some ⟨some "u1"⟩⟩⟩

/-- Concrete malformed request: the utterance field is missing. -/
def reqNoUtterance : Option KakaoRequest := some ⟨some ⟨none, none, some ⟨some "u1"⟩⟩⟩

end KakaoBot

namespace KakaoBot

/-! Helper lemmas about the substring test, the trace counters, the stripper
and the conversation store. -/

lemma matchesAt_append_self : ∀ (p t : List Char), matchesAt p (p ++ t) = true := by
  intro p
  induction p with
  | nil => intro t; rfl
  | cons a as ih => intro t; simp [matchesAt, ih]

lemma occursInL_append_self (p t : List Char) : occursInL p (p ++ t) = true := by
  cases p with
  | nil =>
    cases t with
    | nil => rfl
    | cons c r => simp [occursInL, matchesAt]
  | cons a as =>
    simp only [List.cons_append, occursInL, matchesAt]
    simp [matchesAt_append_self]

lemma string_data_append (a b : String) : (a ++ b).data = a.data ++ b.data := rfl

lemma kb_error_sentinel (e : String) :
    occursIn ERROR_MSG_KNOWLEDGE_BASE (loadAndFormatKnowledgeBase (Except.error e)) = true := by
  unfold loadAndFormatKnowledgeBase occursIn
  rw [string_data_append, string_data_append, string_data_append]
  rw [List.append_assoc, List.append_assoc]
  exact occursInL_append_self _ _

lemma countCallbackPosts_genEffects (tb : String) (g : Except Unit String) :
    countCallbackPosts (generateAiResponseTotalKnowledge tb g).2 = 0 := by
  unfold generateAiResponseTotalKnowledge countCallbackPosts
  split
  · rfl
  · cases g <;> rfl

lemma countCallbackPosts_jandi (b : Bool) : countCallbackPosts (jandiEffects b) = 0 := by
  cases b <;> rfl

lemma countCallbackPosts_delivery (url : String) (p : KakaoPayload)
    (r : Except Unit Nat) (h : url ≠ "") :
    countCallbackPosts (deliveryEffects url p r) = 1 := by
  unfold deliveryEffects countCallbackPosts
  rw [if_neg h]
  cases r with
  | error e => rfl
  | ok n =>
    rw [List.countP_cons_of_pos]
    · split <;> rfl
    · rfl

lemma head_dropWhile_false (p : Char → Bool) :
    ∀ (l : List Char) (a : Char), (l.dropWhile p).head? = some a → p a = false := by
  intro l
  induction l with
  | nil => intro a h; simp [List.dropWhile] at h
  | cons x xs ih =>
    intro a h
    rw [List.dropWhile_cons] at h
    by_cases hx : p x
    · simp [hx] at h
      exact ih a h
    · simp [hx] at h
      rw [← h]
      exact eq_false_of_ne_true hx

lemma getLast?_dropWhile_ne_nil (p : Char → Bool) :
    ∀ (l : List Char), l.dropWhile p ≠ [] → (l.dropWhile p).getLast? = l.getLast? := by
  intro l
  induction l with
  | nil => intro h; simp [List.dropWhile] at h
  | cons x xs ih =>
    intro h
    rw [List.dropWhile_cons] at h ⊢
    by_cases hx : p x
    · simp only [hx, if_true] at h ⊢
      rw [ih h]
      have hxs : xs ≠ [] := by
        intro hh
        rw [hh] at h
        simp [List.dropWhile] at h
      cases xs with
      | nil => exact absurd rfl hxs
      | cons y ys => simp
    · simp [hx]

lemma mem_pyStrip {c : Char} {l : List Char} (h : c ∈ pyStrip l) : c ∈ l := by
  unfold pyStrip at h
  rw [List.mem_reverse] at h
  have h2 : c ∈ (l.dropWhile isPySpace).reverse :=
    (List.dropWhile_sublist isPySpace).mem h
  rw [List.mem_reverse] at h2
  exact (List.dropWhile_sublist isPySpace).mem h2

lemma head_pyStrip {l : List Char} {a : Char} (h : (pyStrip l).head? = some a) :
    isPySpace a = false := by
  unfold pyStrip at h
  rw [List.head?_reverse] at h
  have hne : (l.dropWhile isPySpace).reverse.dropWhile isPySpace ≠ [] := by
    intro hh
    rw [hh] at h
    simp at h
  rw [getLast?_dropWhile_ne_nil _ _ hne, List.getLast?_reverse] at h
  exact head_dropWhile_false _ _ _ h

lemma last_pyStrip {l : List Char} {a : Char} (h : (pyStrip l).getLast? = some a) :
    isPySpace a = false := by
  unfold pyStrip at h
  rw [List.getLast?_reverse] at h
  exact head_dropWhile_false _ _ _ h

lemma userTurnsFrom_le (u : String) :
    ∀ (l : List Turn) (i : Nat) (p : Nat × Turn), p ∈ userTurnsFrom i u l → i ≤ p.1 := by
  intro l
  induction l with
  | nil => intro i p hp; simp [userTurnsFrom] at hp
  | cons t rest ih =>
    intro i p hp
    unfold userTurnsFrom at hp
    by_cases ht : t.userId = u
    · rw [if_pos ht] at hp
      rcases List.mem_cons.mp hp with h1 | h2
      · rw [h1]
      · exact le_trans (Nat.le_succ i) (ih (i + 1) p h2)
    · rw [if_neg ht] at hp
      exact le_trans (Nat.le_succ i) (ih (i + 1) p hp)

lemma userTurnsFrom_pairwise (u : String) :
    ∀ (l : List Turn) (i : Nat),
      (userTurnsFrom i u l).Pairwise (fun a b => a.1 < b.1) := by
  intro l
  induction l with
  | nil => intro i; simp [userTurnsFrom]
  | cons t rest ih =>
    intro i
    unfold userTurnsFrom
    by_cases ht : t.userId = u
    · rw [if_pos ht]
      refine List.pairwise_cons.mpr ⟨?_, ih (i + 1)⟩
      intro p hp
      exact lt_of_lt_of_le (Nat.lt_succ_self i) (userTurnsFrom_le u rest (i + 1) p hp)
    · rw [if_neg ht]
      exact ih (i + 1)

lemma userTurnsFrom_append_own (u : String) (t : Turn) (ht : t.userId = u) :
    ∀ (l : List Turn) (i : Nat),
      userTurnsFrom i u (l ++ [t]) = userTurnsFrom i u l ++ [(i + l.length, t)] := by
  intro l
  induction l with
  | nil => intro i; simp [userTurnsFrom, ht]
  | cons a rest ih =>
    intro i
    simp only [List.cons_append]
    unfold userTurnsFrom
    have hlen : i + 1 + rest.length = i + (a :: rest).length := by
      simp only [List.length_cons]
      omega
    by_cases ha : a.userId = u
    · rw [if_pos ha, if_pos ha, ih (i + 1), hlen, List.cons_append]
    · rw [if_neg ha, if_neg ha, ih (i + 1), hlen]

/-! Claim theorems. -/

/-- C1: for every deferred request (non-empty callback target), the background
pipeline issues exactly one terminal callback POST — never zero, never more
than one — whatever the outcomes of the history read, the generation call and
the delivery itself; a failed delivery only adds a log entry. -/
theorem C1_exactly_one_callback_post (userId userMessage callbackUrl : String)
    (env : PipelineEnv) (h : callbackUrl ≠ "") :
    countCallbackPosts (processAndSendCallback userId userMessage callbackUrl env) = 1 := by
  have h1 := countCallbackPosts_genEffects env.textbook env.genResult
  have h2 := countCallbackPosts_jandi env.jandiConfigured
  have h3 := countCallbackPosts_delivery callbackUrl
    (buildCallbackPayload (deferredFinalText env.textbook env.genResult)) env.deliveryResult h
  unfold countCallbackPosts at h1 h2 h3
  unfold processAndSendCallback countCallbackPosts
  simp only [List.countP_cons, List.countP_append, h1, h2, h3, isCallbackPostEvt]
  rfl

/-- C1 witness: exactly one callback POST on a concrete deferred request. -/
theorem C1_exactly_one_callback_post_witness :
    ("http://cb" : String) ≠ "" ∧
    countCallbackPosts (processAndSendCallback "u1" "문의" "http://cb" envEmptyGen) = 1 :=
  ⟨by decide, C1_exactly_one_callback_post "u1" "문의" "http://cb" envEmptyGen (by decide)⟩

/-- C2 counterexample: the handler launches the background thread and only
then returns the ack, so the coordinator trace is launch-then-ack; under
interleaving semantics there is a schedule of the remaining coordinator step
and the background pipeline in which pipeline work (the history read) occurs
before the ack is emitted, refuting ack-before-any-work as stated. -/
theorem C2_ack_ordering_counterexample :
    callbackHandler (some reqWithCb) envEmptyGen =
      ((200, HandlerResponse.ack),
        [Effect.threadLaunch "u1" "문의" "http://cb", Effect.ackReturn]) ∧
    (processAndSendCallback "u1" "문의" "http://cb" envEmptyGen ++ [Effect.ackReturn]) ∈
      interleavings [Effect.ackReturn]
        (processAndSendCallback "u1" "문의" "http://cb" envEmptyGen) ∧
    ackBeforeWork
      (processAndSendCallback "u1" "문의" "http://cb" envEmptyGen ++ [Effect.ackReturn]) = false :=
  ⟨by decide, by decide, by decide⟩

/-- C2 amended: in deferred mode the handler performs no retrieval or
generation work itself and returns the acknowledgment immediately after
launching the background unit, independently of every pipeline outcome; the
launch precedes the ack in program order, so ack-before-work holds only up to
scheduling, not as a guarantee. -/
theorem C2_ack_independent_of_pipeline (req : Option KakaoRequest) (env : PipelineEnv)
    (msg uid url : String)
    (h : extractFields req = some (msg, some url, uid)) (hu : url ≠ "") :
    callbackHandler req env =
      ((200, HandlerResponse.ack), [Effect.threadLaunch uid msg url, Effect.ackReturn]) := by
  unfold callbackHandler
  rw [h]
  unfold optTruthy
  simp [hu]

/-- C2 witness: the amended statement at a concrete deferred request. -/
theorem C2_ack_independent_of_pipeline_witness :
    callbackHandler (some reqWithCb) envEmptyGen =
      ((200, HandlerResponse.ack),
        [Effect.threadLaunch "u1" "문의" "http://cb", Effect.ackReturn]) :=
  C2_ack_independent_of_pipeline (some reqWithCb) envEmptyGen "문의" "u1" "http://cb"
    (by decide) (by decide)

/-- C3 counterexample: against an empty corpus the compiled textbook is empty,
and a query returns the knowledge-base-unavailable apology with no generation
call — not the fixed no-info message, which is a different string. -/
theorem C3_empty_corpus_counterexample :
    generateAiResponseTotalKnowledge (loadAndFormatKnowledgeBase (Except.ok []))
        (Except.ok "정보") = (ERROR_MSG_KB_UNAVAILABLE, []) ∧
    ERROR_MSG_KB_UNAVAILABLE ≠ FALLBACK_MSG_NO_INFO :=
  ⟨by decide, by decide⟩

/-- C3 amended: for every query against an empty corpus the system returns the
fixed knowledge-base-unavailable apology and never invokes the generation
service (the trace carries no generation call). -/
theorem C3_empty_corpus_apology (g : Except Unit String) :
    generateAiResponseTotalKnowledge (loadAndFormatKnowledgeBase (Except.ok [])) g =
      (ERROR_MSG_KB_UNAVAILABLE, []) := by
  have hkb : kbFailed (loadAndFormatKnowledgeBase (Except.ok [])) = true := by decide
  unfold generateAiResponseTotalKnowledge
  simp [hkb]

/-- C4 counterexample: the sanitizer leaves a block-quote marker untouched, so
not every structural formatting marker is removed. -/
theorem C4_blockquote_survives_counterexample :
    sanitize ("> 안내".data) = ("> 안내").data ∧ ('>' ∈ sanitize ("> 안내".data)) :=
  ⟨by decide, by decide⟩

/-- C4 amended: every character of the sanitized output comes from the input
and is none of the six removed marker characters (star, hash, hyphen,
backtick, bullet, tilde), and the output carries no leading or trailing
whitespace; markers outside that set, such as the block-quote sign, survive. -/
theorem C4_sanitizer_amended (s : List Char) (c h₁ h₂ : Char)
    (hc : c ∈ sanitize s)
    (hh : (sanitize s).head? = some h₁)
    (hl : (sanitize s).getLast? = some h₂) :
    (c ∈ s ∧ removalSet.contains c = false) ∧ isPySpace h₁ = false ∧ isPySpace h₂ = false := by
  refine ⟨⟨?_, ?_⟩, head_pyStrip hh, last_pyStrip hl⟩
  · unfold sanitize at hc
    exact (List.mem_filter.mp (mem_pyStrip hc)).1
  · unfold sanitize at hc
    have h3 := (List.mem_filter.mp (mem_pyStrip hc)).2
    simpa using h3

/-- C4 witness: the amended statement at a concrete input. -/
theorem C4_sanitizer_amended_witness :
    (('a' ∈ " *ab* ".data) ∧ removalSet.contains 'a' = false) ∧
    isPySpace 'a' = false ∧ isPySpace 'b' = false :=
  C4_sanitizer_amended (" *ab* ".data) 'a' 'a' 'b' (by decide) (by decide) (by decide)

/-- C5 counterexample: in immediate mode, when the generation call succeeds
with an empty string, the handler delivers that empty string, not the fixed
generation-failed fallback. -/
theorem C5_sync_no_fallback_counterexample :
    (callbackHandler (some reqNoCb) envEmptyGen).1 =
      (200, HandlerResponse.payload (buildSyncPayload "")) ∧
    (buildSyncPayload "").template.outputs = [""] ∧
    ("" : String) ≠ FALLBACK_MSG_EMPTY_RESPONSE :=
  ⟨by decide, by decide, by decide⟩

/-- C5 amended: in deferred mode an empty or whitespace-only generation result
is replaced by the fixed generation-failed fallback, a string distinct from
the apology used for generation-call errors. -/
theorem C5_deferred_empty_fallback (tb s : String)
    (h1 : kbFailed tb = false) (h2 : pyStrip (sanitize s.data) = []) :
    deferredFinalText tb (Except.ok s) = FALLBACK_MSG_EMPTY_RESPONSE ∧
    FALLBACK_MSG_EMPTY_RESPONSE ≠ ERROR_MSG_AI_FAILED := by
  constructor
  · unfold deferredFinalText generateAiResponseTotalKnowledge
    have h2m : pyStrip (String.mk (sanitize s.data)).data = [] := h2
    simp [h1, h2m]
  · decide

/-- C5 witness: the amended statement for a service output of marker
characters only. -/
theorem C5_deferred_empty_fallback_witness :
    kbFailed "KB" = false ∧ pyStrip (sanitize ("***".data)) = [] ∧
    (deferredFinalText "KB" (Except.ok "***") = FALLBACK_MSG_EMPTY_RESPONSE ∧
     FALLBACK_MSG_EMPTY_RESPONSE ≠ ERROR_MSG_AI_FAILED) :=
  ⟨by decide, by decide, C5_deferred_empty_fallback "KB" "***" (by decide) (by decide)⟩

/-- C6: whenever the external generation call errors, the answer-generation
step returns the fixed apology and has called the service exactly once (no
retry); it is a total function, so the error never escapes as a crash. -/
theorem C6_service_error_apology (tb : String) (h : kbFailed tb = false) :
    generateAiResponseTotalKnowledge tb (Except.error ()) =
      (ERROR_MSG_AI_FAILED, [Effect.genCall]) := by
  unfold generateAiResponseTotalKnowledge
  simp [h]

/-- C6 witness: the apology on a concrete healthy textbook. -/
theorem C6_service_error_apology_witness :
    kbFailed "KB" = false ∧
    generateAiResponseTotalKnowledge "KB" (Except.error ()) =
      (ERROR_MSG_AI_FAILED, [Effect.genCall]) :=
  ⟨by decide, C6_service_error_apology "KB" (by decide)⟩

/-- C7: for every corpus read or parse failure the textbook becomes a sentinel
containing the fixed error message, and every subsequent query short-circuits
to the fixed apology with an empty effect trace (no external call). -/
theorem C7_build_failure_sentinel (e : String) (g : Except Unit String) :
    occursIn ERROR_MSG_KNOWLEDGE_BASE (loadAndFormatKnowledgeBase (Except.error e)) = true ∧
    generateAiResponseTotalKnowledge (loadAndFormatKnowledgeBase (Except.error e)) g =
      (ERROR_MSG_KB_UNAVAILABLE, []) := by
  refine ⟨kb_error_sentinel e, ?_⟩
  have hkb : kbFailed (loadAndFormatKnowledgeBase (Except.error e)) = true := by
    unfold kbFailed
    rw [kb_error_sentinel e]
    simp
  unfold generateAiResponseTotalKnowledge
  simp [hkb]

/-- C8: every inbound request with a missing required field is rejected with
status 400 and an empty effect trace: no history read, no generation call, no
store append, no callback. -/
theorem C8_malformed_rejected (req : Option KakaoRequest) (env : PipelineEnv)
    (h : extractFields req = none) :
    callbackHandler req env = ((400, HandlerResponse.clientError), []) := by
  unfold callbackHandler
  rw [h]

/-- C8 witness: a request missing the utterance is rejected with no work. -/
theorem C8_malformed_rejected_witness :
    extractFields reqNoUtterance = none ∧
    callbackHandler reqNoUtterance envEmptyGen = ((400, HandlerResponse.clientError), []) :=
  ⟨by decide, C8_malformed_rejected reqNoUtterance envEmptyGen (by decide)⟩

/-- C9: after appending a turn for user u, fetching with any limit of at least
one returns that turn as the most recent entry, in a sequence that is
chronologically ascending (strictly increasing timestamps) and no longer than
the limit. -/
theorem C9_append_fetch (db : List Turn) (u role content : String) (n : Nat) (hn : 1 ≤ n) :
    (getConversationHistory (addToConversationHistory db u role content) u n).getLast? =
      some { role := role, content := content } ∧
    (getConversationHistory (addToConversationHistory db u role content) u n).length ≤ n ∧
    (getConversationHistoryTimed (addToConversationHistory db u role content) u n).Pairwise
      (fun a b => a.1 < b.1) := by
  obtain ⟨m, rfl⟩ : ∃ m, n = m + 1 := ⟨n - 1, by omega⟩
  have happ : userTurnsFrom 0 u (addToConversationHistory db u role content) =
      userTurnsFrom 0 u db ++ [(db.length, { userId := u, role := role, content := content })] := by
    have h := userTurnsFrom_append_own u { userId := u, role := role, content := content }
      rfl db 0
    unfold addToConversationHistory
    simpa using h
  have htimed : getConversationHistoryTimed (addToConversationHistory db u role content) u (m + 1) =
      ((userTurnsFrom 0 u db).reverse.take m).reverse ++
        [(db.length, { userId := u, role := role, content := content })] := by
    unfold getConversationHistoryTimed
    rw [happ, List.reverse_append]
    simp only [List.reverse_cons, List.reverse_nil, List.nil_append, List.take_succ_cons,
      List.singleton_append]
  refine ⟨?_, ?_, ?_⟩
  · unfold getConversationHistory
    rw [htimed, List.map_append, List.map_cons, List.map_nil, List.getLast?_concat]
  · unfold getConversationHistory
    rw [List.length_map]
    unfold getConversationHistoryTimed
    rw [List.length_reverse]
    exact List.length_take_le _ _
  · unfold getConversationHistoryTimed
    rw [List.pairwise_reverse]
    apply List.Pairwise.sublist (List.take_sublist _ _)
    rw [List.pairwise_reverse]
    exact userTurnsFrom_pairwise u _ 0

/-- C9 witness: the store round trip on a concrete append. -/
theorem C9_append_fetch_witness :
    (getConversationHistory (addToConversationHistory [] "u" "user" "hi") "u" 1).getLast? =
      some { role := "user", content := "hi" } ∧
    (getConversationHistory (addToConversationHistory [] "u" "user" "hi") "u" 1).length ≤ 1 ∧
    (getConversationHistoryTimed (addToConversationHistory [] "u" "user" "hi") "u" 1).Pairwise
      (fun a b => a.1 < b.1) :=
  C9_append_fetch [] "u" "user" "hi" 1 (by decide)

/-- C10: in both the deferred and the immediate payload builders, the phone
quick-reply is attached exactly when the fixed no-info sentence occurs as a
substring of the final text, and in every case the payload carries the final
text as its single simple-text output. -/
theorem C10_quickreply_iff (t : String) :
    ((buildCallbackPayload t).template.quickReplies ≠ [] ↔
      occursIn FALLBACK_MSG_NO_INFO t = true) ∧
    ((buildSyncPayload t).template.quickReplies ≠ [] ↔
      occursIn FALLBACK_MSG_NO_INFO t = true) ∧
    (buildCallbackPayload t).template.outputs = [t] ∧
    (buildSyncPayload t).template.outputs = [t] := by
  unfold buildCallbackPayload buildSyncPayload
  by_cases h : occursIn FALLBACK_MSG_NO_INFO t = true
  · simp [h]
  · simp [h]

end KakaoBot
